import Mathlib

/-!
Verification of the AgenticAI Lab dashboard model.

The dashboard component (DashboardPage) keeps five pieces of client state:
the agent roster, the job list, a loading flag, the prompt input value and
an isCreatingJob guard flag.  Its operations are fetchData (installs the
mock agents and jobs, clears the loading flag), createJob (rejects a
whitespace-only prompt with an alert, otherwise sets the guard flag and,
when the simulated delay resolves, prepends a completed job, clears the
prompt and the guard flag), and the pure status projections getStatusIcon
and getStatusBadge.  Everything below is a direct embedding of that code.
-/

namespace AgenticAIDashboard

/-- An agent of the dashboard roster: id, display name and a status string
(the source annotates it as one of ready, busy, error). -/
structure Agent where
  id : String
  name : String
  status : String
deriving DecidableEq

/-- A job of the dashboard list: id, a type tag and a status string
(the source annotates it as one of created, processing, completed, failed). -/
structure Job where
  id : String
  type : String
  status : String
deriving DecidableEq

/-- The rendered output of getStatusIcon: the icon component name and its
className, exactly as produced by the JSX of the source. -/
structure Icon where
  name : String
  className : String
deriving DecidableEq

/-- The rendered output of getStatusBadge: the Badge variant, its optional
className and its visible label, exactly as produced by the JSX of the
source (the default branch renders the raw status string as the label). -/
structure StatusBadge where
  variant : String
  className : Option String
  label : String
deriving DecidableEq

/-- Embedding of getStatusIcon.  The switch statement falls through from
busy to processing and from error to failed, so those pairs share one
return; the default branch returns the gray RefreshCw icon. -/
def getStatusIcon (status : String) : Icon :=
  if status = "ready" then ⟨"CheckCircle", "h-4 w-4 text-green-500"⟩
  else if status = "busy" ∨ status = "processing" then ⟨"Clock", "h-4 w-4 text-yellow-500"⟩
  else if status = "error" ∨ status = "failed" then ⟨"AlertCircle", "h-4 w-4 text-red-500"⟩
  else if status = "completed" then ⟨"CheckCircle", "h-4 w-4 text-green-500"⟩
  else ⟨"RefreshCw", "h-4 w-4 text-gray-500"⟩

/-- Embedding of getStatusBadge.  Same case structure as getStatusIcon;
the default branch renders an outline Badge whose label is the raw status
string itself. -/
def getStatusBadge (status : String) : StatusBadge :=
  if status = "ready" then ⟨"secondary", some "text-green-700 bg-green-100", "Ready"⟩
  else if status = "busy" ∨ status = "processing" then
    ⟨"secondary", some "text-yellow-700 bg-yellow-100", "Busy"⟩
  else if status = "error" ∨ status = "failed" then ⟨"destructive", none, "Error"⟩
  else if status = "completed" then ⟨"secondary", some "text-green-700 bg-green-100", "Completed"⟩
  else ⟨"outline", none, status⟩

/-- The closed status domain named by the specification: the three agent
statuses and the four job statuses. -/
def statusDomain : List String :=
  ["ready", "busy", "error", "created", "processing", "completed", "failed"]

/-- The two fallback renderings of the default branches. -/
def fallbackIcon : Icon := ⟨"RefreshCw", "h-4 w-4 text-gray-500"⟩

/-- The fallback badge for a status string: an outline Badge labeled with
the raw status string. -/
def fallbackBadge (status : String) : StatusBadge := ⟨"outline", none, status⟩

end AgenticAIDashboard

namespace AgenticAIDashboard

/-- Embedding of the JavaScript trim used by the guard of createJob:
drop whitespace characters from both ends of the string. -/
def jsTrim (s : String) : String :=
  String.mk (((s.data.dropWhile Char.isWhitespace).reverse.dropWhile Char.isWhitespace).reverse)

/-- Decimal digits of a natural number, least significant first, driven by
an explicit fuel so that the definition is structural and computable by the
kernel.  With fuel at least n this is the full decimal expansion of n. -/
def decDigits : Nat → Nat → List Nat
  | 0, _ => []
  | _ + 1, 0 => []
  | fuel + 1, n + 1 => (n + 1) % 10 :: decDigits fuel ((n + 1) / 10)

/-- The decimal string of a natural number, as produced by the template
literal of the source for the timestamp of a new job id. -/
def decimalString (n : Nat) : String :=
  if n = 0 then "0" else String.mk (((decDigits n n).map Nat.digitChar).reverse)

/-- The id scheme of createJob: the literal job_ followed by the decimal
rendering of the creation timestamp in milliseconds. -/
def jobId (now : Nat) : String := "job_" ++ decimalString now

/-- The job record that the resolved mock response of createJob prepends
to the job list. -/
def newJob (now : Nat) : Job :=
  { id := jobId now, type := "content_creation", status := "completed" }

/-- The component state of DashboardPage: the five useState hooks. -/
structure DashboardState where
  agents : List Agent
  jobs : List Job
  loading : Bool
  jobPrompt : String
  isCreatingJob : Bool
deriving DecidableEq

/-- The initial hook values: empty lists, loading true, empty prompt,
guard flag false. -/
def initialState : DashboardState :=
  { agents := [], jobs := [], loading := true, jobPrompt := "", isCreatingJob := false }

/-- The mock agent roster installed by fetchData. -/
def mockAgents : List Agent :=
  [⟨"mistral", "Mistral 7B", "ready"⟩,
   ⟨"codellama", "Code Llama 13B", "ready"⟩,
   ⟨"llama", "Llama 3.2 3B", "ready"⟩,
   ⟨"research", "Research Agent", "ready"⟩]

/-- The mock job list installed by fetchData. -/
def mockJobs : List Job :=
  [⟨"job_001", "content_creation", "completed"⟩,
   ⟨"job_002", "video_generation", "processing"⟩,
   ⟨"job_003", "content_creation", "completed"⟩]

/-- Embedding of fetchData: install the mock data and clear the loading
flag (the finally block always clears it). -/
def fetchData (s : DashboardState) : DashboardState :=
  { s with agents := mockAgents, jobs := mockJobs, loading := false }

/-- The user visible alerts the component can raise: the validation
message for an empty prompt, and the completion message shown with the
prompt when the simulated job resolves. -/
inductive Alert where
  | validation
  | jobCompleted (prompt : String)
deriving DecidableEq

/-- Embedding of the first half of createJob: when the trimmed prompt is
empty, alert the validation message and return with no state change;
otherwise set the isCreatingJob guard flag and schedule the resolution. -/
def createJobStart (s : DashboardState) : DashboardState × List Alert :=
  if jsTrim s.jobPrompt = "" then (s, [Alert.validation])
  else ({ s with isCreatingJob := true }, [])

/-- Embedding of the setTimeout callback of createJob: alert the
completion message, prepend the new completed job, reset the prompt and
clear the guard flag. -/
def createJobResolve (now : Nat) (s : DashboardState) : DashboardState × List Alert :=
  ({ s with jobs := newJob now :: s.jobs, jobPrompt := "", isCreatingJob := false },
   [Alert.jobCompleted s.jobPrompt])

/-- The whole createJob path, from the call to the resolution of the
simulated delay: rejection is immediate, acceptance passes through the
pending state and then resolves at timestamp now. -/
def createJob (now : Nat) (s : DashboardState) : DashboardState × List Alert :=
  if jsTrim s.jobPrompt = "" then (s, [Alert.validation])
  else createJobResolve now { s with isCreatingJob := true }

/-- The prompt input is disabled exactly when the guard flag is set. -/
def promptInputDisabled (s : DashboardState) : Bool := s.isCreatingJob

/-- The create button is disabled exactly when the guard flag is set. -/
def createButtonDisabled (s : DashboardState) : Bool := s.isCreatingJob

/-- The loading branch of the render: shown exactly while loading. -/
def showsLoadingIndicator (s : DashboardState) : Bool := s.loading

/-- The Completed stat card: jobs whose status equals completed. -/
def completedCount (s : DashboardState) : Nat :=
  (s.jobs.filter (fun j => j.status == "completed")).length

/-- The Active Jobs stat card: jobs whose status equals processing. -/
def activeJobsCount (s : DashboardState) : Nat :=
  (s.jobs.filter (fun j => j.status == "processing")).length

/-- C3: getStatusBadge and getStatusIcon are total on strings: every status
in the domain ready, busy, error, created, processing, completed, failed
produces one of the finitely many badges and icons of the source, and any
string outside that domain produces the labeled fallback badge carrying the
raw status string, and the gray fallback icon, rather than failing. -/
theorem status_projection_total (st : String) (h : st ∉ statusDomain) :
    getStatusBadge st = fallbackBadge st ∧
    getStatusIcon st = fallbackIcon ∧
    (∀ d ∈ statusDomain,
      getStatusBadge d ∈
        [⟨"secondary", some "text-green-700 bg-green-100", "Ready"⟩,
         ⟨"secondary", some "text-yellow-700 bg-yellow-100", "Busy"⟩,
         ⟨"destructive", none, "Error"⟩,
         ⟨"secondary", some "text-green-700 bg-green-100", "Completed"⟩,
         fallbackBadge d] ∧
      getStatusIcon d ∈
        [⟨"CheckCircle", "h-4 w-4 text-green-500"⟩,
         ⟨"Clock", "h-4 w-4 text-yellow-500"⟩,
         ⟨"AlertCircle", "h-4 w-4 text-red-500"⟩,
         fallbackIcon]) := by
  simp only [statusDomain, List.mem_cons, List.not_mem_nil, or_false, not_or] at h
  obtain ⟨h1, h2, h3, h4, h5, h6, h7⟩ := h
  refine ⟨?_, ?_, ?_⟩
  · simp [getStatusBadge, fallbackBadge, h1, h2, h3, h5, h6, h7]
  · simp [getStatusIcon, fallbackIcon, h1, h2, h3, h5, h6, h7]
  · intro d hd
    simp only [statusDomain, List.mem_cons, List.not_mem_nil, or_false] at hd
    rcases hd with rfl | rfl | rfl | rfl | rfl | rfl | rfl <;> decide

/-- Witness for C3 at the concrete status string unknown_status. -/
theorem status_projection_total_witness :
    getStatusBadge "unknown_status" = fallbackBadge "unknown_status" ∧
    getStatusIcon "unknown_status" = fallbackIcon ∧
    (∀ d ∈ statusDomain,
      getStatusBadge d ∈
        [⟨"secondary", some "text-green-700 bg-green-100", "Ready"⟩,
         ⟨"secondary", some "text-yellow-700 bg-yellow-100", "Busy"⟩,
         ⟨"destructive", none, "Error"⟩,
         ⟨"secondary", some "text-green-700 bg-green-100", "Completed"⟩,
         fallbackBadge d] ∧
      getStatusIcon d ∈
        [⟨"CheckCircle", "h-4 w-4 text-green-500"⟩,
         ⟨"Clock", "h-4 w-4 text-yellow-500"⟩,
         ⟨"AlertCircle", "h-4 w-4 text-red-500"⟩,
         fallbackIcon]) :=
  status_projection_total "unknown_status" (by decide)

/-- C8: the status projection aliases agent and job states visually:
busy and processing share an icon and a badge, error and failed share an
icon and a badge, and ready and completed share an icon. -/
theorem status_projection_aliasing :
    getStatusIcon "busy" = getStatusIcon "processing" ∧
    getStatusIcon "error" = getStatusIcon "failed" ∧
    getStatusIcon "ready" = getStatusIcon "completed" ∧
    getStatusBadge "busy" = getStatusBadge "processing" ∧
    getStatusBadge "error" = getStatusBadge "failed" := by
  decide

/-- C9: the status created, although part of the closed domain of the
specification, has no dedicated case in either projection: it produces
exactly the generic fallback outputs, an outline badge labeled with the
raw string created and the gray RefreshCw icon, identical in shape to the
output for a wholly unrecognized status string. -/
theorem created_status_falls_back :
    getStatusBadge "created" = fallbackBadge "created" ∧
    getStatusIcon "created" = fallbackIcon ∧
    getStatusIcon "created" = getStatusIcon "no_such_status" ∧
    (getStatusBadge "created").variant = (getStatusBadge "no_such_status").variant ∧
    (getStatusBadge "created").label = "created" := by
  decide

/-- C1: for every prompt that is non-empty after trimming, createJob, once
the simulated delay resolves, prepends exactly one new Job at the head of
the job list, with status completed and type content_creation; the path
always resolves with the completion alert, and the job it adds never has
status failed. -/
theorem createJob_accepted_resolves (s : DashboardState) (now : Nat)
    (h : jsTrim s.jobPrompt ≠ "") :
    (createJob now s).1.jobs = newJob now :: s.jobs ∧
    (newJob now).status = "completed" ∧
    (newJob now).type = "content_creation" ∧
    (newJob now).status ≠ "failed" ∧
    (createJob now s).2 = [Alert.jobCompleted s.jobPrompt] := by
  refine ⟨?_, rfl, rfl, by simp [newJob], ?_⟩ <;>
    simp [createJob, createJobResolve, h]

/-- Witness for C1 at a concrete state holding the prompt of the
specification example. -/
theorem createJob_accepted_resolves_witness :
    (createJob 1700000000000 { initialState with jobPrompt := "Write a tweet about cats" }).1.jobs
        = newJob 1700000000000 :: initialState.jobs ∧
    (newJob 1700000000000).status = "completed" ∧
    (newJob 1700000000000).type = "content_creation" ∧
    (newJob 1700000000000).status ≠ "failed" ∧
    (createJob 1700000000000 { initialState with jobPrompt := "Write a tweet about cats" }).2
        = [Alert.jobCompleted "Write a tweet about cats"] :=
  createJob_accepted_resolves { initialState with jobPrompt := "Write a tweet about cats" }
    1700000000000 (by decide)

/-- C2: for every prompt that trims to the empty string, createJob adds no
job, raises exactly the validation alert, and leaves the whole state, in
particular the job list, the agent roster and the isCreatingJob flag,
exactly as it was; the rejection is local and immediate. -/
theorem createJob_rejected_no_change (s : DashboardState) (now : Nat)
    (h : jsTrim s.jobPrompt = "") :
    (createJob now s).1 = s ∧
    (createJob now s).1.jobs = s.jobs ∧
    (createJob now s).1.agents = s.agents ∧
    (createJob now s).1.isCreatingJob = s.isCreatingJob ∧
    (createJob now s).2 = [Alert.validation] := by
  simp [createJob, h]

/-- Witness for C2 at a concrete state holding a whitespace-only prompt. -/
theorem createJob_rejected_no_change_witness :
    (createJob 5 { initialState with jobPrompt := "   " }).1
        = { initialState with jobPrompt := "   " } ∧
    (createJob 5 { initialState with jobPrompt := "   " }).1.jobs
        = ({ initialState with jobPrompt := "   " } : DashboardState).jobs ∧
    (createJob 5 { initialState with jobPrompt := "   " }).1.agents
        = ({ initialState with jobPrompt := "   " } : DashboardState).agents ∧
    (createJob 5 { initialState with jobPrompt := "   " }).1.isCreatingJob
        = ({ initialState with jobPrompt := "   " } : DashboardState).isCreatingJob ∧
    (createJob 5 { initialState with jobPrompt := "   " }).2 = [Alert.validation] :=
  createJob_rejected_no_change { initialState with jobPrompt := "   " } 5 (by decide)

/-- C4: an accepted submission sets the isCreatingJob flag, which disables
both the create button and the prompt input for the whole pending phase,
so no second submission can start while one is in flight; the flag is
cleared exactly when the pending submission resolves, re-enabling both
controls. -/
theorem single_submission_in_flight (s : DashboardState) (now : Nat)
    (h : jsTrim s.jobPrompt ≠ "") :
    (createJobStart s).1.isCreatingJob = true ∧
    createButtonDisabled (createJobStart s).1 = true ∧
    promptInputDisabled (createJobStart s).1 = true ∧
    (createJobResolve now (createJobStart s).1).1.isCreatingJob = false ∧
    createButtonDisabled (createJobResolve now (createJobStart s).1).1 = false ∧
    promptInputDisabled (createJobResolve now (createJobStart s).1).1 = false := by
  simp [createJobStart, createJobResolve, createButtonDisabled, promptInputDisabled, h]

/-- Witness for C4 at a concrete state with a non-empty prompt. -/
theorem single_submission_in_flight_witness :
    (createJobStart { initialState with jobPrompt := "hello" }).1.isCreatingJob = true ∧
    createButtonDisabled (createJobStart { initialState with jobPrompt := "hello" }).1 = true ∧
    promptInputDisabled (createJobStart { initialState with jobPrompt := "hello" }).1 = true ∧
    (createJobResolve 9 (createJobStart { initialState with jobPrompt := "hello" }).1).1.isCreatingJob
        = false ∧
    createButtonDisabled
        (createJobResolve 9 (createJobStart { initialState with jobPrompt := "hello" }).1).1
        = false ∧
    promptInputDisabled
        (createJobResolve 9 (createJobStart { initialState with jobPrompt := "hello" }).1).1
        = false :=
  single_submission_in_flight { initialState with jobPrompt := "hello" } 9 (by decide)

/-- C5: on mount the loading indicator is shown; after the mocked fetch
resolves it is hidden, exactly 4 agents and 3 jobs are shown, the
Completed count, computed as the number of jobs with status completed,
is 2, and the Active Jobs count, computed as the number of jobs with
status processing, is 1. -/
theorem initial_load_counts :
    showsLoadingIndicator initialState = true ∧
    showsLoadingIndicator (fetchData initialState) = false ∧
    (fetchData initialState).agents.length = 4 ∧
    (fetchData initialState).jobs.length = 3 ∧
    completedCount (fetchData initialState) = 2 ∧
    activeJobsCount (fetchData initialState) = 1 := by
  decide

/-- C10: when an accepted createJob submission resolves, the only state
changes are the prepended new job, the prompt reset to the empty string
and the cleared isCreatingJob flag: the agent roster, the loading flag and
every previously present job, with its id, type and status, are untouched. -/
theorem createJob_frame_condition (s : DashboardState) (now : Nat)
    (h : jsTrim s.jobPrompt ≠ "") :
    (createJob now s).1.jobs = newJob now :: s.jobs ∧
    (createJob now s).1.jobPrompt = "" ∧
    (createJob now s).1.isCreatingJob = false ∧
    (createJob now s).1.agents = s.agents ∧
    (createJob now s).1.loading = s.loading ∧
    ∀ j ∈ s.jobs, j ∈ (createJob now s).1.jobs := by
  refine ⟨?_, ?_, ?_, ?_, ?_, ?_⟩ <;>
    simp [createJob, createJobResolve, h]
  intro j hj
  exact Or.inr hj

/-- Witness for C10 at a concrete state with one pre-existing job. -/
theorem createJob_frame_condition_witness :
    (createJob 7 { fetchData initialState with jobPrompt := "x" }).1.jobs
        = newJob 7 :: (fetchData initialState).jobs ∧
    (createJob 7 { fetchData initialState with jobPrompt := "x" }).1.jobPrompt = "" ∧
    (createJob 7 { fetchData initialState with jobPrompt := "x" }).1.isCreatingJob = false ∧
    (createJob 7 { fetchData initialState with jobPrompt := "x" }).1.agents
        = ({ fetchData initialState with jobPrompt := "x" } : DashboardState).agents ∧
    (createJob 7 { fetchData initialState with jobPrompt := "x" }).1.loading
        = ({ fetchData initialState with jobPrompt := "x" } : DashboardState).loading ∧
    ∀ j ∈ ({ fetchData initialState with jobPrompt := "x" } : DashboardState).jobs,
      j ∈ (createJob 7 { fetchData initialState with jobPrompt := "x" }).1.jobs :=
  createJob_frame_condition { fetchData initialState with jobPrompt := "x" } 7 (by decide)

/-- Rank of a job status in the lifecycle created, processing, terminal;
the two terminal states share the top rank. -/
def statusRank (st : String) : Nat :=
  if st = "created" then 0
  else if st = "processing" then 1
  else if st = "completed" ∨ st = "failed" then 2
  else 0

/-- A status is terminal when it is completed or failed. -/
def isTerminal (st : String) : Bool := st == "completed" || st == "failed"

/-- The operations of the dashboard as a step relation on component
states: the single mount fetch, a user edit of the prompt input, a
rejected submission, an accepted submission, which the UI only allows
while the create button is enabled, and the resolution of a pending
submission. -/
inductive DashStep : DashboardState → DashboardState → Prop where
  | fetch : DashStep initialState (fetchData initialState)
  | editPrompt (s : DashboardState) (p : String) :
      DashStep s { s with jobPrompt := p }
  | submitRejected (s : DashboardState) (hp : jsTrim s.jobPrompt = "") :
      DashStep s (createJobStart s).1
  | submitAccepted (s : DashboardState) (hp : jsTrim s.jobPrompt ≠ "")
      (hg : createButtonDisabled s = false) :
      DashStep s (createJobStart s).1
  | resolve (s : DashboardState) (now : Nat) (hg : s.isCreatingJob = true) :
      DashStep s (createJobResolve now s).1

/-- C6: every job present in the list before any dashboard operation is
still present after it with its id and status untouched, so a job status
never moves backward in the lifecycle rank and never leaves a terminal
state through the initial fetch or through createJob. -/
theorem job_lifecycle_monotone (s t : DashboardState) (hstep : DashStep s t)
    (j : Job) (hj : j ∈ s.jobs) :
    ∃ k ∈ t.jobs, k.id = j.id ∧ k.status = j.status ∧
      statusRank j.status ≤ statusRank k.status ∧
      (isTerminal j.status = true → k.status = j.status) := by
  cases hstep with
  | fetch => simp [initialState] at hj
  | editPrompt s p => exact ⟨j, hj, rfl, rfl, le_refl _, fun _ => rfl⟩
  | submitRejected s hp =>
      refine ⟨j, ?_, rfl, rfl, le_refl _, fun _ => rfl⟩
      simpa [createJobStart, hp] using hj
  | submitAccepted s hp hg =>
      refine ⟨j, ?_, rfl, rfl, le_refl _, fun _ => rfl⟩
      simpa [createJobStart, hp] using hj
  | resolve s now hg =>
      exact ⟨j, List.mem_cons_of_mem _ hj, rfl, rfl, le_refl _, fun _ => rfl⟩

/-- Witness for C6: resolving a pending submission on top of the fetched
mock data keeps the completed job job_001 in place with its status. -/
theorem job_lifecycle_monotone_witness :
    ∃ k ∈ (createJobResolve 42 { fetchData initialState with isCreatingJob := true }).1.jobs,
      k.id = "job_001" ∧ k.status = "completed" ∧
      statusRank "completed" ≤ statusRank k.status ∧
      (isTerminal "completed" = true → k.status = "completed") :=
  job_lifecycle_monotone { fetchData initialState with isCreatingJob := true }
    (createJobResolve 42 { fetchData initialState with isCreatingJob := true }).1
    (DashStep.resolve { fetchData initialState with isCreatingJob := true } 42 rfl)
    ⟨"job_001", "content_creation", "completed"⟩ (by decide)

/-- Numeric value of a little-endian decimal digit list. -/
def decValue : List Nat → Nat
  | [] => 0
  | d :: ds => d + 10 * decValue ds

theorem decValue_decDigits : ∀ fuel n, n ≤ fuel → decValue (decDigits fuel n) = n := by
  intro fuel
  induction fuel with
  | zero =>
      intro n hn
      have : n = 0 := Nat.le_zero.mp hn
      subst this
      rfl
  | succ f ih =>
      intro n hn
      cases n with
      | zero => rfl
      | succ m =>
          have hdiv : (m + 1) / 10 ≤ f := by
            have h1 : (m + 1) / 10 < m + 1 := Nat.div_lt_self (Nat.succ_pos m) (by norm_num)
            omega
          simp only [decDigits, decValue, ih ((m + 1) / 10) hdiv]
          omega

theorem decDigits_lt_ten : ∀ fuel n d, d ∈ decDigits fuel n → d < 10 := by
  intro fuel
  induction fuel with
  | zero => intro n d hd; simp [decDigits] at hd
  | succ f ih =>
      intro n d hd
      cases n with
      | zero => simp [decDigits] at hd
      | succ m =>
          simp only [decDigits, List.mem_cons] at hd
          rcases hd with rfl | hd
          · exact Nat.mod_lt _ (by norm_num)
          · exact ih _ _ hd

theorem digitChar_inj_below_ten :
    ∀ a < 10, ∀ b < 10, Nat.digitChar a = Nat.digitChar b → a = b := by
  decide

theorem digitChar_eq_zero_char : ∀ d < 10, Nat.digitChar d = Char.ofNat 48 → d = 0 := by
  decide

theorem map_digitChar_inj :
    ∀ l1 l2 : List Nat, (∀ d ∈ l1, d < 10) → (∀ d ∈ l2, d < 10) →
      l1.map Nat.digitChar = l2.map Nat.digitChar → l1 = l2 := by
  intro l1
  induction l1 with
  | nil =>
      intro l2 _ _ h
      cases l2 with
      | nil => rfl
      | cons b m => simp at h
  | cons a l ih =>
      intro l2 h1 h2 h
      cases l2 with
      | nil => simp at h
      | cons b m =>
          simp only [List.map, List.cons.injEq] at h
          have hab : a = b :=
            digitChar_inj_below_ten a (h1 a (List.mem_cons_self a l)) b
              (h2 b (List.mem_cons_self b m)) h.1
          have hlm : l = m :=
            ih m (fun d hd => h1 d (List.mem_cons_of_mem a hd))
              (fun d hd => h2 d (List.mem_cons_of_mem b hd)) h.2
          rw [hab, hlm]

theorem decimalString_data_of_ne_zero (n : Nat) (hn : n ≠ 0) :
    (decimalString n).data = ((decDigits n n).map Nat.digitChar).reverse := by
  simp [decimalString, hn]

theorem decimalString_ne_zero_repr (n : Nat) (hn : n ≠ 0) :
    ((decDigits n n).map Nat.digitChar).reverse ≠ [Char.ofNat 48] := by
  intro hcontra
  have hmap : (decDigits n n).map Nat.digitChar = [Char.ofNat 48] := by
    have := congrArg List.reverse hcontra
    simpa using this
  have hdig : decDigits n n = [0] := by
    cases hlist : decDigits n n with
    | nil => rw [hlist] at hmap; simp at hmap
    | cons d ds =>
        rw [hlist] at hmap
        simp only [List.map, List.cons.injEq, List.map_eq_nil_iff] at hmap
        have hd10 : d < 10 := decDigits_lt_ten n n d (by rw [hlist]; exact List.mem_cons_self d ds)
        have : d = 0 := digitChar_eq_zero_char d hd10 hmap.1
        rw [this, hmap.2]
  have hval : decValue (decDigits n n) = n := decValue_decDigits n n (le_refl n)
  rw [hdig] at hval
  simp [decValue] at hval
  exact hn hval.symm

theorem decimalString_inj (a b : Nat) (h : decimalString a = decimalString b) : a = b := by
  by_cases ha : a = 0 <;> by_cases hb : b = 0
  · rw [ha, hb]
  · exfalso
    rw [ha] at h
    have hdata := congrArg String.data h
    rw [decimalString_data_of_ne_zero b hb] at hdata
    have h0 : ("0" : String).data = [Char.ofNat 48] := rfl
    rw [show decimalString 0 = "0" from rfl, h0] at hdata
    exact decimalString_ne_zero_repr b hb hdata.symm
  · exfalso
    rw [hb] at h
    have hdata := congrArg String.data h
    rw [decimalString_data_of_ne_zero a ha] at hdata
    have h0 : ("0" : String).data = [Char.ofNat 48] := rfl
    rw [show decimalString 0 = "0" from rfl, h0] at hdata
    exact decimalString_ne_zero_repr a ha hdata
  · have hdata := congrArg String.data h
    rw [decimalString_data_of_ne_zero a ha, decimalString_data_of_ne_zero b hb] at hdata
    have hmap : (decDigits a a).map Nat.digitChar = (decDigits b b).map Nat.digitChar :=
      List.reverse_injective hdata
    have hdig : decDigits a a = decDigits b b :=
      map_digitChar_inj _ _ (fun d hd => decDigits_lt_ten a a d hd)
        (fun d hd => decDigits_lt_ten b b d hd) hmap
    have hva : decValue (decDigits a a) = a := decValue_decDigits a a (le_refl a)
    have hvb : decValue (decDigits b b) = b := decValue_decDigits b b (le_refl b)
    rw [hdig, hvb] at hva
    exact hva.symm

theorem jobId_inj (t1 t2 : Nat) : jobId t1 = jobId t2 ↔ t1 = t2 := by
  constructor
  · intro h
    have hdata := congrArg String.data h
    simp only [jobId, String.data_append] at hdata
    have hs : (decimalString t1).data = (decimalString t2).data :=
      List.append_cancel_left hdata
    exact decimalString_inj t1 t2 (String.ext hs)
  · intro h
    rw [h]

/-- C7: the id of the job created by an accepted submission is the literal
job_ followed by the decimal rendering of the creation timestamp, so the
ids of two submissions coincide exactly when their timestamps coincide:
distinct timestamps give distinct ids, while submissions sharing a
timestamp share an id. -/
theorem job_id_timestamp_scheme (s : DashboardState) (t1 t2 : Nat)
    (h : jsTrim s.jobPrompt ≠ "") :
    (createJob t1 s).1.jobs.head? = some (newJob t1) ∧
    (newJob t1).id = "job_" ++ decimalString t1 ∧
    (jobId t1 = jobId t2 ↔ t1 = t2) := by
  refine ⟨?_, rfl, jobId_inj t1 t2⟩
  simp [createJob, createJobResolve, h]

/-- Witness for C7 at a concrete state and the timestamps 3 and 4. -/
theorem job_id_timestamp_scheme_witness :
    (createJob 3 { initialState with jobPrompt := "cats" }).1.jobs.head? = some (newJob 3) ∧
    (newJob 3).id = "job_" ++ decimalString 3 ∧
    (jobId 3 = jobId 4 ↔ (3 : Nat) = 4) :=
  job_id_timestamp_scheme { initialState with jobPrompt := "cats" } 3 4 (by decide)

end AgenticAIDashboard
